import Mathlib

/-!
Verification of the continuous audio capture → chunked transcription pipeline
of `text_to_speech.py` (class `RealtimeTranslator`): a shallow embedding of the
chunk transcription step, the translation call, the processing loop, the chunk
queue and the start/stop controller, with theorems settling the spec claims.
-/

namespace TTS

/-! ## Filesystem model

Transient WAV artifacts are tracked as a list of file names.  `os.remove`
deletes the name, `os.path.exists` is membership, `tempfile.NamedTemporaryFile`
creates the name. -/

structure FS where
  files : List String
deriving DecidableEq

def FS.hasFile (fs : FS) (f : String) : Bool :=
  fs.files.contains f

def FS.create (fs : FS) (f : String) : FS :=
  ⟨f :: fs.files⟩

def FS.remove (fs : FS) (f : String) : FS :=
  ⟨fs.files.filter (fun g => g != f)⟩

/-! ## Chunk transcription (`_transcribe_chunk`, lines 118–165)

The external `whisper-cli` subprocess (`subprocess.run` with `check=True`,
`timeout=10`) can: exit 0 with some stdout; exceed the 10 s timeout
(`subprocess.TimeoutExpired`); or fail in any other way (`CalledProcessError`
from a non-zero exit, or any exception after the temp file was created).  A
fourth path covers an exception before the temp file exists, in which case
`tmp_filename` is still `None`. -/

inductive RunOutcome where
  | success (stdout : String)
  | timeout
  | procError
  | createError
deriving DecidableEq

/-- Whitespace for Python `str.strip()`. -/
def isSpaceChar (c : Char) : Bool :=
  c == ' ' || c == '\t' || c == '\n' || c == '\r'

def dropLeadingSpace : List Char → List Char
  | [] => []
  | c :: cs => if isSpaceChar c then dropLeadingSpace cs else c :: cs

/-- Python `str.strip()`: remove leading and trailing whitespace. -/
def pyStrip (s : String) : String :=
  ⟨(dropLeadingSpace (dropLeadingSpace s.data.reverse).reverse)⟩

/-- `timeout=10` argument of the `subprocess.run` call (line 148). -/
def whisperTimeoutSeconds : ℚ := 10

/-- Command line built for `whisper-cli` (lines 134–141). -/
def whisperArgs (binaryPath tmpName modelPath : String) : List String :=
  [binaryPath, "-f", tmpName, "-m", modelPath, "-l", "en", "-t", "4", "-nt"]

/-- The transcription string `_transcribe_chunk` returns for a given subprocess
outcome: on success, `result.stdout.strip()` if non-empty else `None`
(lines 154–155); `None` on every failure path. -/
def transcribeResult (o : RunOutcome) : Option String :=
  match o with
  | .success out =>
      let t := pyStrip out
      if t = "" then none else some t
  | .timeout => none
  | .procError => none
  | .createError => none

structure TranscribeOut where
  result : Option String
  fs : FS
  prints : List String
deriving DecidableEq

/-- Shallow embedding of `_transcribe_chunk` acting on the filesystem:
create the temp file, run the subprocess, and remove the file on each exit
path exactly as the source does (unconditional `os.remove` on success,
`if tmp_filename and os.path.exists(...): os.remove(...)` in the two except
handlers; when temp-file creation itself failed nothing was created). -/
def transcribeChunk (tmpName : String) (o : RunOutcome) (fs : FS) : TranscribeOut :=
  match o with
  | .createError => ⟨none, fs, []⟩
  | .success out =>
      let fs1 := fs.create tmpName
      let fs2 := fs1.remove tmpName
      ⟨transcribeResult (.success out), fs2, []⟩
  | .timeout =>
      let fs1 := fs.create tmpName
      let fs2 := if fs1.hasFile tmpName then fs1.remove tmpName else fs1
      ⟨none, fs2, ["Transcription timeout"]⟩
  | .procError =>
      let fs1 := fs.create tmpName
      let fs2 := if fs1.hasFile tmpName then fs1.remove tmpName else fs1
      ⟨none, fs2, []⟩

theorem FS.hasFile_remove (fs : FS) (f : String) : (fs.remove f).hasFile f = false := by
  simp [FS.remove, FS.hasFile, List.contains_iff_exists_mem_beq, List.mem_filter]

theorem FS.hasFile_create (fs : FS) (f : String) : (fs.create f).hasFile f = true := by
  simp [FS.create, FS.hasFile]

/-! ## Resampling and quantization (`_transcribe_chunk`, lines 126–131)

`num_samples = int(len(audio_array) * 16000 / 44100)` truncates the exact
ratio, which on naturals is floor division.  `scipy.signal.resample` is an
external library call; it is kept abstract as a function argument, constrained
only by its documented behavior (output length is the requested count, and the
FFT of an all-zero signal is all-zero).  The buffer is then quantized by
`(audio_resampled * 32767).astype(np.int16)`: C-style truncation toward zero
followed by wrap-around into the signed 16-bit range. -/

def targetSampleRate : ℕ := 16000

def captureSampleRate : ℕ := 44100

def numSamplesFor (inputLen : ℕ) : ℕ :=
  inputLen * targetSampleRate / captureSampleRate

/-- Truncation toward zero, the C/numpy float→int conversion. -/
def truncToInt (q : ℚ) : ℤ :=
  if 0 ≤ q then ⌊q⌋ else -⌊-q⌋

/-- Wrap an integer into the signed 16-bit range, as `astype(np.int16)` does. -/
def toInt16 (z : ℤ) : ℤ :=
  (z + 32768) % 65536 - 32768

def quantizeSample (x : ℚ) : ℤ :=
  toInt16 (truncToInt (x * 32767))

/-- The int16 buffer written to the transient WAV file: resample the flattened
chunk to `numSamplesFor len` samples, then quantize to signed 16-bit PCM. -/
def prepareChunk (res : List ℚ → ℕ → List ℚ) (audio : List ℚ) : List ℤ :=
  (res audio (numSamplesFor audio.length)).map quantizeSample

/-! ## Translation (`_translate_text`, lines 167–194)

`requests.post` to the local generation endpoint with `timeout=10`;
`raise_for_status()` turns a non-2xx status into a `RequestException`, which
is caught together with network failures (printing a diagnostic and returning
`None`); any other exception (e.g. a missing `response` field in the JSON) is
swallowed by the bare `except Exception` with no diagnostic. -/

inductive HttpOutcome where
  | ok (responseText : String)
  | statusError (code : ℕ)
  | netError
  | otherError
deriving DecidableEq

def translateTimeoutSeconds : ℚ := 10

def generationEndpoint : String := "http://localhost:11434/api/generate"

def llmModel : String := "gemma3:4b"

def translatePrompt (text : String) : String :=
  "Translate the following English text to Spanish. Only provide the Spanish translation, nothing else.\n\nEnglish: "
    ++ text ++ "\n\nSpanish:"

/-- Observable effects of the processing loop; one constructor per source
site: the subprocess invocation (line 143), the HTTP POST (line 176), and the
five print sites (lines 158 timeout, 191 translation error, 231 translation
output, 220 TTS error, 116 chunk error). -/
inductive Action where
  | transcribeCall (tmpName : String)
  | httpPost (url : String) (prompt : String)
  | printTimeout
  | printTranslationError
  | printTranslation (text : String)
  | playback (text : String)
  | printTTSError
  | printChunkError
deriving DecidableEq

structure TranslateOut where
  result : Option String
  actions : List Action
deriving DecidableEq

/-- Shallow embedding of `_translate_text`. -/
def translateText (text : String) (h : HttpOutcome) : TranslateOut :=
  match h with
  | .ok r => ⟨some (pyStrip r), [.httpPost generationEndpoint (translatePrompt text)]⟩
  | .statusError _ =>
      ⟨none, [.httpPost generationEndpoint (translatePrompt text), .printTranslationError]⟩
  | .netError =>
      ⟨none, [.httpPost generationEndpoint (translatePrompt text), .printTranslationError]⟩
  | .otherError =>
      ⟨none, [.httpPost generationEndpoint (translatePrompt text)]⟩

/-! ## Speech synthesis (`_speak_translation`, lines 196–222)

Synchronous playback; any internal failure is caught and printed. -/

inductive PlayOutcome where
  | ok
  | err
deriving DecidableEq

def speakTranslation (text : String) (p : PlayOutcome) : List Action :=
  match p with
  | .ok => [.playback text]
  | .err => [.printTTSError]

/-! ## Processing loop (`_process_chunks`, lines 92–116)

Each iteration dequeues with `timeout=0.5` (continuing on `queue.Empty`),
transcribes the chunk, and runs the downstream stages only under the guard
`if transcription and '[BLANK_AUDIO]' not in transcription` — Python
truthiness (non-`None` and non-empty) plus substring containment — and then
`if translation` (non-`None` and non-empty).  Any other exception in the body
is caught, printed, and the loop continues. -/

def blankAudioSentinel : String := "[BLANK_AUDIO]"

def listPrefixEq : List Char → List Char → Bool
  | [], _ => true
  | _ :: _, [] => false
  | a :: as, b :: bs => a == b && listPrefixEq as bs

/-- Contiguous-substring containment, Python `pat in s` on strings. -/
def containsSub (pat : List Char) : List Char → Bool
  | [] => listPrefixEq pat []
  | c :: cs => listPrefixEq pat (c :: cs) || containsSub pat cs

def hasBlankAudio (s : String) : Bool :=
  containsSub blankAudioSentinel.data s.data

/-- The guard on line 102: `transcription and '[BLANK_AUDIO]' not in
transcription`. -/
def shouldProcess (tr : Option String) : Bool :=
  match tr with
  | none => false
  | some t => !(t == "") && !(hasBlankAudio t)

/-- Per-iteration external behavior: the subprocess outcome for the dequeued
chunk, the generation endpoint outcome (consulted only if the loop calls it),
and the playback outcome (likewise). -/
structure ChunkEnv where
  tmpName : String
  run : RunOutcome
  http : HttpOutcome
  play : PlayOutcome
deriving DecidableEq

/-- One iteration of the loop body: the queue yielded nothing
(`queue.Empty`), the body raised an unexpected exception (line 115), or a
chunk was dequeued and processed under the environment `env`. -/
inductive IterEnv where
  | empty
  | exnOther
  | chunk (env : ChunkEnv)
deriving DecidableEq

/-- One iteration of `_process_chunks` over a dequeued chunk: transcribe,
then translate / print / speak under the two truthiness guards. -/
def processChunk (fs : FS) (env : ChunkEnv) : FS × List Action :=
  let t := transcribeChunk env.tmpName env.run fs
  let base := Action.transcribeCall env.tmpName ::
    t.prints.map (fun _ => Action.printTimeout)
  match t.result with
  | some text =>
      if !(text == "") && !(hasBlankAudio text) then
        let tr := translateText text env.http
        match tr.result with
        | some translation =>
            if !(translation == "") then
              (t.fs, base ++ tr.actions ++ [.printTranslation translation]
                ++ speakTranslation translation env.play)
            else (t.fs, base ++ tr.actions)
        | none => (t.fs, base ++ tr.actions)
      else (t.fs, base)
  | none => (t.fs, base)

def processIter (fs : FS) (e : IterEnv) : FS × List Action :=
  match e with
  | .empty => (fs, [])
  | .exnOther => (fs, [.printChunkError])
  | .chunk env => processChunk fs env

/-- The loop over successive iterations while the running flag stays true. -/
def processLoop (fs : FS) (es : List IterEnv) : FS × List Action :=
  match es with
  | [] => (fs, [])
  | e :: rest =>
      let s := processIter fs e
      let r := processLoop s.1 rest
      (r.1, s.2 ++ r.2)

/-- `audio_queue.get(timeout=0.5)` on line 97. -/
def queueGetTimeoutSeconds : ℚ := 1/2

/-! ## Chunk queue (`queue.Queue`, lines 30, 81, 97)

`queue.Queue()` with no `maxsize` is an unbounded FIFO; `put` appends and
never blocks, `get` removes from the front.  A run is an interleaving of
producer `put`s and consumer `get` attempts; a `get` on an empty queue is the
`queue.Empty` wait and the consumer simply retries. -/

def enqueue (q : List α) (a : α) : List α := q ++ [a]

inductive GetResult (α : Type u) where
  | got (a : α)
  | empty
deriving DecidableEq

def dequeue : List α → GetResult α × List α
  | [] => (.empty, [])
  | a :: q => (.got a, q)

inductive QEvent (α : Type u) where
  | put (a : α)
  | get
deriving DecidableEq

/-- Run an interleaved trace of queue events; returns the final queue contents
and the list of chunks the single consumer obtained, in order. -/
def runQueue : List (QEvent α) → List α → List α × List α
  | [], q => (q, [])
  | .put a :: es, q => runQueue es (enqueue q a)
  | .get :: es, q =>
      match dequeue q with
      | (.empty, q2) => runQueue es q2
      | (.got a, q2) =>
          let r := runQueue es q2
          (r.1, a :: r.2)

/-- The chunks enqueued by a trace, in capture order. -/
def putsOf : List (QEvent α) → List α
  | [] => []
  | .put a :: es => a :: putsOf es
  | .get :: es => putsOf es

/-! ## Pipeline controller (`start` lines 54–70, `stop` lines 234–248)

`is_running` is the shared flag; `start` returns immediately when already
running, otherwise sets the flag and starts the two threads; `stop` returns
immediately when idle, otherwise clears the flag and joins each thread that
exists (`hasattr`). -/

structure ControllerState where
  isRunning : Bool
  threadsStarted : Bool
deriving DecidableEq

inductive CtlAction where
  | startRecordingThread
  | startProcessingThread
  | joinRecordingThread
  | joinProcessingThread
deriving DecidableEq

def ControllerState.initial : ControllerState := ⟨false, false⟩

def startTranslator (s : ControllerState) : ControllerState × List CtlAction :=
  if s.isRunning then (s, [])
  else (⟨true, true⟩, [.startRecordingThread, .startProcessingThread])

def stopTranslator (s : ControllerState) : ControllerState × List CtlAction :=
  if !s.isRunning then (s, [])
  else ({ s with isRunning := false },
        (if s.threadsStarted then [.joinRecordingThread] else [])
          ++ (if s.threadsStarted then [.joinProcessingThread] else []))

inductive Cmd where
  | start
  | stop
deriving DecidableEq

def runCmds : List Cmd → ControllerState
  | [] => ControllerState.initial
  | c :: cs =>
      let s := runCmds cs
      match c with
      | .start => (startTranslator s).1
      | .stop => (stopTranslator s).1

/-! ## Startup validation (`__init__`, lines 37–52)

Piper voice load failure, missing binary, or missing model each print a
diagnostic and `sys.exit(1)`, in that order. -/

inductive InitResult where
  | started
  | exited
deriving DecidableEq

def initTranslator (voiceOk binaryExists modelExists : Bool) : InitResult :=
  if !voiceOk then .exited
  else if !binaryExists then .exited
  else if !modelExists then .exited
  else .started

/-! ## Timing model (`_record_chunks` line 90, `_process_chunks`)

The capture loop polls the flag every `sd.sleep(100)` milliseconds.  The
processing loop re-checks the flag only between iterations: an iteration
either spends the 0.5 s queue-wait, or processes a whole chunk — transcription
(bounded by its 10 s timeout), then translation (bounded by its 10 s timeout)
and playback when the guards pass. -/

def audioPollSeconds : ℚ := 1/10

structure StageDurations where
  transcribe : ℚ
  translate : ℚ
  playback : ℚ
deriving DecidableEq

/-- Time spent in synchronous playback: the playback duration when a
non-empty translation is spoken, zero otherwise. -/
def playbackPart (d : StageDurations) (r : Option String) : ℚ :=
  match r with
  | some translation => if !(translation == "") then d.playback else 0
  | none => 0

/-- Worst-case time one loop iteration takes after the flag check, i.e. the
processing loop's termination latency when the flag flips right after the
`while self.is_running` test. -/
def iterDuration (d : StageDurations) (e : IterEnv) : ℚ :=
  match e with
  | .empty => queueGetTimeoutSeconds
  | .exnOther => 0
  | .chunk env =>
      match transcribeResult env.run with
      | none => d.transcribe
      | some text =>
          if !(text == "") && !(hasBlankAudio text) then
            d.transcribe + d.translate +
              playbackPart d (translateText text env.http).result
          else d.transcribe

/-! ## Classifying actions and environments -/

def Action.isHttp : Action → Bool
  | .httpPost _ _ => true
  | _ => false

def Action.isTranscribe : Action → Bool
  | .transcribeCall _ => true
  | _ => false

def Action.isPrint : Action → Bool
  | .printTimeout => true
  | .printTranslationError => true
  | .printTranslation _ => true
  | .printTTSError => true
  | .printChunkError => true
  | _ => false

/-- Actions belonging to the downstream stages (generation endpoint call,
its error report, translation printing, playback, playback error report). -/
def Action.isDownstream : Action → Bool
  | .httpPost _ _ => true
  | .printTranslationError => true
  | .printTranslation _ => true
  | .playback _ => true
  | .printTTSError => true
  | _ => false

def IterEnv.isChunk : IterEnv → Bool
  | .chunk _ => true
  | _ => false

/-- The transcription stage failed: the subprocess did not exit successfully. -/
def ChunkEnv.transcriptionFailed (env : ChunkEnv) : Bool :=
  match env.run with
  | .success _ => false
  | _ => true

/-! ## Helper lemmas -/

theorem transcribeChunk_result (tmpName : String) (o : RunOutcome) (fs : FS) :
    (transcribeChunk tmpName o fs).result = transcribeResult o := by
  cases o <;> rfl

theorem transcribeResult_ne_empty (o : RunOutcome) (s : String)
    (h : transcribeResult o = some s) : s ≠ "" := by
  cases o with
  | success out =>
      simp only [transcribeResult] at h
      by_cases he : pyStrip out = "" <;> simp [he] at h
      exact h ▸ he
  | timeout => simp [transcribeResult] at h
  | procError => simp [transcribeResult] at h
  | createError => simp [transcribeResult] at h

theorem translateText_any_http (text : String) (h : HttpOutcome) :
    (translateText text h).actions.any Action.isHttp = true := by
  cases h <;> simp [translateText, Action.isHttp]

theorem speakTranslation_any_http (text : String) (p : PlayOutcome) :
    (speakTranslation text p).any Action.isHttp = false := by
  cases p <;> simp [speakTranslation, Action.isHttp]

theorem translateText_filter_transcribe (text : String) (h : HttpOutcome) :
    (translateText text h).actions.filter Action.isTranscribe = [] := by
  cases h <;> simp [translateText, Action.isTranscribe]

theorem speakTranslation_filter_transcribe (text : String) (p : PlayOutcome) :
    (speakTranslation text p).filter Action.isTranscribe = [] := by
  cases p <;> simp [speakTranslation, Action.isTranscribe]

theorem processChunk_skip (fs : FS) (env : ChunkEnv)
    (h : shouldProcess (transcribeResult env.run) = false) :
    (processChunk fs env).2 = Action.transcribeCall env.tmpName ::
      (transcribeChunk env.tmpName env.run fs).prints.map (fun _ => Action.printTimeout) := by
  rcases env with ⟨n, o, ho, p⟩
  cases o with
  | success out =>
      simp only [shouldProcess, transcribeResult] at h
      simp only [processChunk, transcribeChunk, transcribeResult]
      by_cases he : pyStrip out = ""
      · simp [he]
      · simp only [he, if_false] at h ⊢
        simp [h]
  | timeout => rfl
  | procError => rfl
  | createError => rfl

theorem processChunk_any_http (fs : FS) (env : ChunkEnv) :
    (processChunk fs env).2.any Action.isHttp = shouldProcess (transcribeResult env.run) := by
  rcases env with ⟨n, o, ho, p⟩
  cases o with
  | success out =>
      simp only [processChunk, transcribeChunk, transcribeResult, shouldProcess]
      by_cases he : pyStrip out = ""
      · simp [he, Action.isHttp]
      · simp only [he, if_false]
        by_cases hb : (!(pyStrip out == "") && !hasBlankAudio (pyStrip out)) = true
        · simp only [hb, if_true]
          rcases hres : (translateText (pyStrip out) ho).result with _ | translation
          · simp [List.any_append, translateText_any_http, Action.isHttp, hres]
          · by_cases ht : (!(translation == "")) = true <;>
              simp [List.any_append, translateText_any_http, Action.isHttp, hres, ht,
                speakTranslation_any_http]
        · simp only [Bool.not_eq_true] at hb
          simp [hb, Action.isHttp]
  | timeout => simp [processChunk, transcribeChunk, transcribeResult, shouldProcess, Action.isHttp]
  | procError => simp [processChunk, transcribeChunk, transcribeResult, shouldProcess, Action.isHttp]
  | createError => simp [processChunk, transcribeChunk, transcribeResult, shouldProcess, Action.isHttp]

theorem processChunk_filter_transcribe (fs : FS) (env : ChunkEnv) :
    (processChunk fs env).2.filter Action.isTranscribe = [Action.transcribeCall env.tmpName] := by
  rcases env with ⟨n, o, ho, p⟩
  cases o with
  | success out =>
      simp only [processChunk, transcribeChunk, transcribeResult]
      by_cases he : pyStrip out = ""
      · simp [he, Action.isTranscribe]
      · simp only [he, if_false]
        by_cases hb : (!(pyStrip out == "") && !hasBlankAudio (pyStrip out)) = true
        · simp only [hb, if_true]
          rcases hres : (translateText (pyStrip out) ho).result with _ | translation
          · simp [List.filter_append, translateText_filter_transcribe, Action.isTranscribe, hres]
          · by_cases ht : (!(translation == "")) = true <;>
              simp [List.filter_append, translateText_filter_transcribe, Action.isTranscribe,
                hres, ht, speakTranslation_filter_transcribe]
        · simp only [Bool.not_eq_true] at hb
          simp [hb, Action.isTranscribe]
  | timeout => simp [processChunk, transcribeChunk, Action.isTranscribe]
  | procError => simp [processChunk, transcribeChunk, Action.isTranscribe]
  | createError => simp [processChunk, transcribeChunk, Action.isTranscribe]

theorem processLoop_transcribe_count (fs : FS) (es : List IterEnv) :
    ((processLoop fs es).2.filter Action.isTranscribe).length =
      (es.filter IterEnv.isChunk).length := by
  induction es generalizing fs with
  | nil => simp [processLoop]
  | cons e rest ih =>
      cases e with
      | empty =>
          simp [processLoop, processIter, List.filter_append, ih, IterEnv.isChunk,
            List.filter_cons]
      | exnOther =>
          simp [processLoop, processIter, List.filter_append, ih, IterEnv.isChunk,
            List.filter_cons, Action.isTranscribe]
      | chunk env =>
          simp [processLoop, processIter, List.filter_append, processChunk_filter_transcribe,
            ih, IterEnv.isChunk, List.filter_cons, Action.isTranscribe]

theorem runQueue_fifo (es : List (QEvent α)) (q : List α) :
    (runQueue es q).2 ++ (runQueue es q).1 = q ++ putsOf es := by
  induction es generalizing q with
  | nil => simp [runQueue, putsOf]
  | cons e rest ih =>
      cases e with
      | put a => simpa [runQueue, putsOf, enqueue] using ih (q ++ [a])
      | get =>
          cases q with
          | nil => simpa [runQueue, dequeue, putsOf] using ih []
          | cons a q2 => simpa [runQueue, dequeue, putsOf] using ih q2

theorem runCmds_threads (cs : List Cmd) :
    (runCmds cs).isRunning = true → (runCmds cs).threadsStarted = true := by
  induction cs with
  | nil => simp [runCmds, ControllerState.initial]
  | cons c cs ih =>
      cases c with
      | start =>
          simp only [runCmds, startTranslator]
          by_cases h : (runCmds cs).isRunning = true
          · simpa [h] using ih
          · simp [h]
      | stop =>
          simp only [runCmds, stopTranslator]
          by_cases h : (runCmds cs).isRunning = true
          · intro hrun
            simp [h] at hrun
          · simp [h]

theorem quantizeSample_zero : quantizeSample 0 = 0 := by
  norm_num [quantizeSample, truncToInt, toInt16]

theorem playbackPart_le (d : StageDurations) (r : Option String) (hp0 : 0 ≤ d.playback) :
    playbackPart d r ≤ d.playback := by
  rcases r with _ | t
  · simpa [playbackPart] using hp0
  · simp only [playbackPart]
    split_ifs
    · exact le_refl _
    · exact hp0

/-! ## The claims -/

/-- C1: every invocation of `_transcribe_chunk` on an audio chunk leaves the
transient per-chunk WAV file absent from disk after it returns, on every exit
path — successful transcription, external-process failure, timeout, and any
other exception (including one before the temp file existed). -/
theorem C1_transientFileRemoved (tmpName : String) (o : RunOutcome) (fs : FS)
    (h : fs.hasFile tmpName = false) :
    (transcribeChunk tmpName o fs).fs.hasFile tmpName = false := by
  cases o with
  | success out => simp [transcribeChunk, FS.hasFile_remove]
  | timeout => simp [transcribeChunk, FS.hasFile_create, FS.hasFile_remove]
  | procError => simp [transcribeChunk, FS.hasFile_create, FS.hasFile_remove]
  | createError => simpa [transcribeChunk] using h

theorem C1_witness :
    (FS.mk []).hasFile ("chunk.wav") = false ∧
    (transcribeChunk ("chunk.wav") .timeout (FS.mk [])).fs.hasFile ("chunk.wav") = false :=
  ⟨by decide, C1_transientFileRemoved ("chunk.wav") .timeout (FS.mk []) (by decide)⟩

/-- C2: whenever the transcription result of a dequeued chunk is absent or
contains the blank-audio sentinel, the iteration performs no downstream
action: no generation-endpoint HTTP request, no translation error report, no
translation printing, no playback, no playback error report. -/
theorem C2_sentinelSuppressesGeneration (fs : FS) (env : ChunkEnv)
    (h : ∀ s, transcribeResult env.run = some s → hasBlankAudio s = true) :
    (processChunk fs env).2.all (fun a => !(a.isDownstream)) = true := by
  have hsp : shouldProcess (transcribeResult env.run) = false := by
    rcases hres : transcribeResult env.run with _ | s
    · rfl
    · simp [shouldProcess, h s hres]
  rw [processChunk_skip fs env hsp]
  simp [List.all_map, Action.isDownstream]

theorem C2_witness :
    (∀ s, transcribeResult (.success ("[BLANK_AUDIO] hi")) = some s →
      hasBlankAudio s = true) ∧
    (processChunk (FS.mk []) ⟨"chunk.wav", .success ("[BLANK_AUDIO] hi"), .ok ("hola"), .ok⟩).2.all
      (fun a => !(a.isDownstream)) = true := by
  have h : ∀ s, transcribeResult (RunOutcome.success ("[BLANK_AUDIO] hi")) = some s →
      hasBlankAudio s = true := by
    intro s hs
    have h2 : transcribeResult (RunOutcome.success ("[BLANK_AUDIO] hi")) =
        some ("[BLANK_AUDIO] hi") := by decide
    rw [h2] at hs
    cases hs
    decide
  exact ⟨h, C2_sentinelSuppressesGeneration (FS.mk [])
    ⟨"chunk.wav", .success ("[BLANK_AUDIO] hi"), .ok ("hola"), .ok⟩ h⟩

/-- C3: a non-success HTTP status (`raise_for_status`) or a network failure
makes `_translate_text` return `None` without raising; exactly one request was
issued (no retry) and the failure is reported to the operator; and the
processing loop keeps transcribing every later chunk — one subprocess call per
dequeued chunk over any iteration sequence, so a failed call never terminates
the loop. -/
theorem C3_translationFailureNonFatal (text : String) (code : ℕ) (fs : FS)
    (es : List IterEnv) :
    (translateText text (.statusError code)).result = none ∧
    (translateText text (.statusError code)).actions =
      [.httpPost generationEndpoint (translatePrompt text), .printTranslationError] ∧
    (translateText text .netError).result = none ∧
    (translateText text .netError).actions =
      [.httpPost generationEndpoint (translatePrompt text), .printTranslationError] ∧
    ((processLoop fs es).2.filter Action.isTranscribe).length =
      (es.filter IterEnv.isChunk).length :=
  ⟨rfl, rfl, rfl, rfl, processLoop_transcribe_count fs es⟩

/-- C4: the external speech-recognition subprocess is invoked with an explicit
10-second timeout, and a chunk whose transcription exceeds it yields `None`. -/
theorem C4_transcriptionTimeout (tmpName : String) (fs : FS) :
    whisperTimeoutSeconds = 10 ∧
    (transcribeChunk tmpName .timeout fs).result = none :=
  ⟨rfl, rfl⟩

/-- C5: the controller is a two-state machine — a start request while running
is a no-op (no second pair of threads started), a stop request while idle is a
no-op, and a stop request in any reachable running state clears the shared
flag and joins the capture thread and then the processing thread before
returning. -/
theorem C5_controllerStateMachine (s : ControllerState) (cs : List Cmd) :
    (s.isRunning = true → startTranslator s = (s, [])) ∧
    (s.isRunning = false → stopTranslator s = (s, [])) ∧
    ((runCmds cs).isRunning = true →
      stopTranslator (runCmds cs) =
        ({ runCmds cs with isRunning := false },
          [CtlAction.joinRecordingThread, CtlAction.joinProcessingThread])) := by
  refine ⟨fun h => by simp [startTranslator, h], fun h => by simp [stopTranslator, h], fun h => ?_⟩
  have ht := runCmds_threads cs h
  simp [stopTranslator, h, ht]

theorem C5_witness :
    startTranslator ⟨true, true⟩ = (⟨true, true⟩, []) ∧
    stopTranslator ⟨false, false⟩ = (⟨false, false⟩, []) ∧
    stopTranslator (runCmds [Cmd.start]) =
      ({ runCmds [Cmd.start] with isRunning := false },
        [CtlAction.joinRecordingThread, CtlAction.joinProcessingThread]) :=
  ⟨(C5_controllerStateMachine ⟨true, true⟩ []).1 rfl,
   (C5_controllerStateMachine ⟨false, false⟩ []).2.1 rfl,
   (C5_controllerStateMachine ⟨true, true⟩ [Cmd.start]).2.2 (by decide)⟩

/-- C6: the chunk queue is an unbounded order-preserving FIFO:
`put` appends and never fails, the consumer wait is time-boxed at 0.5 s ≤ 1 s,
and over any interleaved single-producer/single-consumer trace the chunks the
consumer obtained followed by the chunks still queued equal the enqueued
chunks in capture order — no duplication, no drop; in particular a drained
trace processes every enqueued chunk exactly once, in order. -/
theorem C6_queueDiscipline (es : List (QEvent α)) (q : List α) (a : α)
    (hdrain : (runQueue es []).1 = []) :
    enqueue q a = q ++ [a] ∧
    (enqueue q a).length = q.length + 1 ∧
    queueGetTimeoutSeconds ≤ 1 ∧
    (runQueue es []).2 ++ (runQueue es []).1 = putsOf es ∧
    (runQueue es []).2 = putsOf es := by
  refine ⟨rfl, by simp [enqueue], by norm_num [queueGetTimeoutSeconds], ?_, ?_⟩
  · simpa using runQueue_fifo es []
  · have := runQueue_fifo es []
    rw [hdrain] at this
    simpa using this

theorem C6_witness :
    (runQueue [QEvent.put 1, QEvent.put 2, QEvent.get, QEvent.get] ([] : List ℕ)).1 = [] ∧
    (runQueue [QEvent.put 1, QEvent.put 2, QEvent.get, QEvent.get] ([] : List ℕ)).2 =
      putsOf [QEvent.put 1, QEvent.put 2, QEvent.get, QEvent.get] :=
  ⟨by decide,
   (C6_queueDiscipline [QEvent.put 1, QEvent.put 2, QEvent.get, QEvent.get] [] 0
      (by decide)).2.2.2.2⟩

/-- C7: for a captured chunk of `len` samples at 44100 Hz the resampling step
requests exactly `len*16000/44100` output samples — so the int16 buffer
written to the transient WAV has exactly that length — and an all-zero chunk
quantizes to an all-zero int16 buffer of that length, for any resampler with
the library's documented behavior (output length as requested, zero in → zero
out). -/
theorem C7_resampleLengthAndZero (res : List ℚ → ℕ → List ℚ)
    (hlen : ∀ xs n, (res xs n).length = n)
    (hzero : ∀ m n, res (List.replicate m 0) n = List.replicate n 0)
    (audio : List ℚ) (len : ℕ) :
    (prepareChunk res audio).length = audio.length * 16000 / 44100 ∧
    prepareChunk res (List.replicate len 0) =
      List.replicate (len * 16000 / 44100) 0 := by
  constructor
  · simp [prepareChunk, hlen, numSamplesFor, targetSampleRate, captureSampleRate]
  · simp [prepareChunk, hzero, numSamplesFor, targetSampleRate, captureSampleRate,
      List.map_replicate, quantizeSample_zero]

theorem C7_witness :
    (prepareChunk (fun _ n => List.replicate n 0) (List.replicate 9 0)).length =
      9 * 16000 / 44100 ∧
    prepareChunk (fun _ n => List.replicate n 0) (List.replicate 9 0) =
      List.replicate (9 * 16000 / 44100) 0 :=
  C7_resampleLengthAndZero (fun _ n => List.replicate n 0)
    (fun xs n => by simp) (fun m n => rfl) (List.replicate 9 0) 9

/-- C8 counterexample: not every failure produces console diagnostic text.
A recognition-subprocess failure (`check=True` raising `CalledProcessError`,
caught by the bare `except Exception` on line 162) is a failure whose
iteration emits no print action at all — the chunk is dropped silently. -/
theorem C8_counterexample :
    ChunkEnv.transcriptionFailed ⟨"chunk.wav", .procError, .ok ("hola"), .ok⟩ = true ∧
    (processChunk (FS.mk []) ⟨"chunk.wav", .procError, .ok ("hola"), .ok⟩).2.filter
      Action.isPrint = [] ∧
    (processChunk (FS.mk []) ⟨"chunk.wav", .procError, .ok ("hola"), .ok⟩).2 =
      [Action.transcribeCall ("chunk.wav")] := by
  refine ⟨rfl, ?_, ?_⟩ <;> decide

/-- C8 amended: transcription timeouts, translation HTTP-status and network
failures, playback failures, and unexpected loop-body exceptions each produce
console diagnostic text, but a recognition-subprocess failure and a
non-network translation failure are swallowed silently; no single chunk
failure terminates the processing loop (it always proceeds to the remaining
iterations); and only the startup validation failures — voice load, missing
binary, missing model — terminate the process. -/
theorem C8_amended_diagnosticsAndResilience (tmpName text : String) (fs : FS)
    (code : ℕ) (e : IterEnv) (es : List IterEnv) (v b m : Bool) :
    (transcribeChunk tmpName .timeout fs).prints = ["Transcription timeout"] ∧
    (transcribeChunk tmpName .procError fs).prints = [] ∧
    Action.printTranslationError ∈ (translateText text (.statusError code)).actions ∧
    Action.printTranslationError ∈ (translateText text .netError).actions ∧
    (translateText text .otherError).actions.filter Action.isPrint = [] ∧
    speakTranslation text .err = [Action.printTTSError] ∧
    (processIter fs .exnOther).2 = [Action.printChunkError] ∧
    (processLoop fs (e :: es)).2 =
      (processIter fs e).2 ++ (processLoop (processIter fs e).1 es).2 ∧
    (initTranslator v b m = .started ↔ (v = true ∧ b = true ∧ m = true)) := by
  refine ⟨rfl, rfl, by simp [translateText], by simp [translateText],
    by simp [translateText, Action.isPrint], rfl, rfl, rfl, ?_⟩
  cases v <;> cases b <;> cases m <;> simp [initTranslator]

/-- C9 counterexample: after the running flag flips, the processing loop does
not terminate within 1.1 s regardless of the in-progress stage — an iteration
whose transcription runs to its full 10-second timeout keeps the loop busy for
10 s, a duration the subprocess call permits, and 10 > 1.1. -/
theorem C9_counterexample :
    iterDuration ⟨10, 0, 0⟩ (.chunk ⟨"chunk.wav", .timeout, .netError, .ok⟩) = 10 ∧
    (10 : ℚ) ≤ whisperTimeoutSeconds ∧
    ¬((10 : ℚ) ≤ 11/10) := by
  refine ⟨rfl, by norm_num [whisperTimeoutSeconds], by norm_num⟩

/-- C9 amended: the capture loop polls the flag every 100 ms, and an idle
processing-loop iteration lasts only the 0.5 s queue wait; but an iteration
that is mid-chunk runs the chunk to completion, so the loop's termination
latency after the flag flips is bounded only by the in-flight stage timeouts —
at most 10 s transcription plus 10 s translation plus the playback duration —
not by 1.1 s. -/
theorem C9_amended_stopLatency (d : StageDurations) (e : IterEnv)
    (ht : d.transcribe ≤ whisperTimeoutSeconds)
    (htr : d.translate ≤ translateTimeoutSeconds)
    (hp0 : 0 ≤ d.playback) :
    audioPollSeconds ≤ 1/10 ∧
    iterDuration d .empty ≤ 1/2 ∧
    iterDuration d e ≤ whisperTimeoutSeconds + translateTimeoutSeconds + d.playback := by
  have h10 : whisperTimeoutSeconds = 10 := rfl
  have h10t : translateTimeoutSeconds = 10 := rfl
  refine ⟨by norm_num [audioPollSeconds], by norm_num [iterDuration, queueGetTimeoutSeconds], ?_⟩
  rw [h10] at ht ⊢
  rw [h10t] at htr ⊢
  cases e with
  | empty => simp only [iterDuration, queueGetTimeoutSeconds]; linarith
  | exnOther => simp only [iterDuration]; linarith
  | chunk env =>
      simp only [iterDuration]
      rcases h : transcribeResult env.run with _ | text <;> simp only [h]
      · linarith
      · have hpl := playbackPart_le d (translateText text env.http).result hp0
        split_ifs <;> linarith

theorem C9_witness :
    ((1 : ℚ) ≤ whisperTimeoutSeconds) ∧ ((1 : ℚ) ≤ translateTimeoutSeconds) ∧
    ((0 : ℚ) ≤ (1 : ℚ)) ∧
    (audioPollSeconds ≤ 1/10 ∧
      iterDuration ⟨1, 1, 1⟩ .empty ≤ 1/2 ∧
      iterDuration ⟨1, 1, 1⟩ .empty ≤
        whisperTimeoutSeconds + translateTimeoutSeconds + (1 : ℚ)) :=
  ⟨by norm_num [whisperTimeoutSeconds], by norm_num [translateTimeoutSeconds], by norm_num,
   C9_amended_stopLatency ⟨1, 1, 1⟩ .empty (by norm_num [whisperTimeoutSeconds])
     (by norm_num [translateTimeoutSeconds]) (by norm_num)⟩

/-- C10: the blank-audio test is substring containment, not equality — for
any transcription the transcriber returns, the downstream stages run exactly
when the string is present and the sentinel occurs nowhere in it (so a string
mixing speech with the sentinel is dropped entirely); a returned string is
never empty, and stdout that strips to nothing is returned as `None`. -/
theorem C10_sentinelSubstringSemantics (tmpName out s : String) (fs : FS)
    (env : ChunkEnv) (h : transcribeResult env.run = some s) :
    (transcribeChunk tmpName (.success out) fs).result =
      (if pyStrip out = "" then none else some (pyStrip out)) ∧
    s ≠ "" ∧
    ((processChunk fs env).2.any Action.isHttp = true ↔ hasBlankAudio s = false) := by
  refine ⟨rfl, transcribeResult_ne_empty env.run s h, ?_⟩
  rw [processChunk_any_http fs env, h]
  have hs : (s == "") = false := by
    simpa using transcribeResult_ne_empty env.run s h
  simp [shouldProcess, hs]

theorem C10_witness :
    transcribeResult (RunOutcome.success ("hi [BLANK_AUDIO] there")) =
      some ("hi [BLANK_AUDIO] there") ∧
    ((transcribeChunk ("chunk.wav")
        (.success ("hi [BLANK_AUDIO] there")) (FS.mk [])).result =
      (if pyStrip ("hi [BLANK_AUDIO] there") = "" then none
        else some (pyStrip ("hi [BLANK_AUDIO] there"))) ∧
    "hi [BLANK_AUDIO] there" ≠ "" ∧
    ((processChunk (FS.mk [])
        ⟨"chunk.wav", .success ("hi [BLANK_AUDIO] there"), .ok ("hola"), .ok⟩).2.any
      Action.isHttp = true ↔
      hasBlankAudio ("hi [BLANK_AUDIO] there") = false)) :=
  ⟨by decide,
   C10_sentinelSubstringSemantics ("chunk.wav") ("hi [BLANK_AUDIO] there")
     ("hi [BLANK_AUDIO] there") (FS.mk [])
     ⟨"chunk.wav", .success ("hi [BLANK_AUDIO] there"), .ok ("hola"), .ok⟩ (by decide)⟩

end TTS
